import Mathlib

/-!
# Shape and dtype inference rules of `LazyShapeDtype.cpp`

A shallow embedding of the hand-written `compute_shape_{op}` / `compute_dtype_{op}`
functions of `lazy_tensor_core/csrc/LazyShapeDtype.cpp`, followed by theorems about them.

Conventions of the embedding

* `std::vector<int64_t>` is `List Int`, `std::vector<std::vector<int64_t>>` is
  `List (List Int)`, `std::vector<c10::ScalarType>` is `List ScalarType`.
* `c10::optional<at::Tensor>` is `Option Tensor`; `has_value()` / contextual conversion to
  `bool` is `Option.isSome`.
* A function that throws, hits `LTC_ERROR` / `LTC_CHECK`, reads a vector past its end or
  dereferences an empty optional returns `Except.error`; otherwise `Except.ok`.
* Functions whose body contains no partial operation return their vector directly.
-/

set_option linter.unusedVariables false

namespace torch_lazy_tensors.ir.ops

/-! ## Data model -/

/-- Modelled from the spec: the element-type tag `c10::ScalarType` (declared in
`c10/core/ScalarType.h`, which is not part of the sources at hand). The constructors are
the members of that enumeration; `Long` is the 64-bit signed integer type. -/
inductive ScalarType where
  | Byte
  | Char
  | Short
  | Int
  | Long
  | Half
  | Float
  | Double
  | ComplexHalf
  | ComplexFloat
  | ComplexDouble
  | Bool
  | QInt8
  | QUInt8
  | QInt32
  | BFloat16
  | QUInt4x2
  | Undefined
  deriving DecidableEq

/-- Modelled from the spec: `c10::isIntegralType(t, includeBool)` (declared in
`c10/core/ScalarType.h`): the integral element types are the 8, 16, 32 and 64-bit integer
types, and the boolean type counts as integral exactly when `includeBool` is set. -/
def isIntegralType (t : ScalarType) (includeBool : Bool) : Bool :=
  let isIntegral :=
    t = ScalarType.Byte ∨ t = ScalarType.Char ∨ t = ScalarType.Int ∨
      t = ScalarType.Long ∨ t = ScalarType.Short
  if includeBool then decide (isIntegral ∨ t = ScalarType.Bool) else decide isIntegral

/-- Modelled from the spec: `c10::isFloatingType(t)` (declared in
`c10/core/ScalarType.h`): the floating-point element types. -/
def isFloatingType (t : ScalarType) : Bool :=
  decide (t = ScalarType.Double ∨ t = ScalarType.Float ∨ t = ScalarType.Half ∨
    t = ScalarType.BFloat16)

/-- Modelled from the spec: the metadata of an `at::Tensor` that the rules read: its
`sizes()`, its `scalar_type()` and its `defined()` flag. `dim()` is a signed 64-bit value,
so the rank of a tensor is below `2 ^ 63`. -/
structure Tensor where
  sizes : List Int
  scalar_type : ScalarType
  defined : Bool
  rank_lt : sizes.length < 2 ^ 63

/-- The rank `input.dim()`. -/
def Tensor.dim (t : Tensor) : Nat := t.sizes.length

/-- Modelled from the spec: an `at::Scalar` argument (declared in `c10/core/Scalar.h`):
a tagged integer, floating-point, complex or boolean value. -/
inductive Scalar where
  | ofInt (v : Int)
  | ofDouble (v : Float)
  | ofComplex (re im : Float)
  | ofBool (b : Bool)

/-- How a rule can fail to return. -/
inductive Failure where
  /-- `LTC_ERROR()` was reached. -/
  | ltc_error_reached
  /-- the condition of an `LTC_CHECK` was false. -/
  | ltc_check_failed
  /-- unchecked `std::vector::operator[]` past the end of the vector. -/
  | vector_out_of_range
  /-- `value()` or `operator->` of an empty `c10::optional`. -/
  | bad_optional_access
  /-- `Tensor::size(d)` with `d` outside the tensor's dimensions. -/
  | dim_out_of_range
  deriving DecidableEq

/-- Modelled from the spec: `at::Reduction::None` (the enumeration lives in
`ATen/core/Reduction.h`), the "none" reduction mode. -/
def Reduction.None : Int := 0

/-- Modelled from the spec: `at::Reduction::Mean`. -/
def Reduction.Mean : Int := 1

/-- Modelled from the spec: `at::Reduction::Sum`. -/
def Reduction.Sum : Int := 2

deriving instance DecidableEq for Except

/-! ## Primitive operations the rules use -/

/-- Unchecked `v[i]` on a `std::vector<int64_t>`. -/
def vec_at (v : List Int) (i : Nat) : Except Failure Int :=
  match v[i]? with
  | some x => Except.ok x
  | none => Except.error Failure.vector_out_of_range

/-- The call `o.value()` on a `c10::optional<at::Tensor>`. -/
def value (o : Option Tensor) : Except Failure Tensor :=
  match o with
  | some t => Except.ok t
  | none => Except.error Failure.bad_optional_access

/-- The access `o->` on a `c10::optional<at::Tensor>`. -/
def arrow (o : Option Tensor) : Except Failure Tensor :=
  match o with
  | some t => Except.ok t
  | none => Except.error Failure.bad_optional_access

/-- The call `self.size(d)` for a non-negative `d`. -/
def Tensor.size (t : Tensor) (d : Nat) : Except Failure Int :=
  match t.sizes[d]? with
  | some x => Except.ok x
  | none => Except.error Failure.dim_out_of_range

/-- The subtraction `a - b` carried out in `size_t` (unsigned, 64 bits). -/
def size_t_sub (a b : Nat) : Nat :=
  Int.toNat (((a : Int) - (b : Int)) % ((2 ^ 64 : Nat) : Int))

/-- The loop `for (const auto idx : c10::irange(start, start + count)) body(idx)`, threading
the loop's state and stopping at the first failure. -/
def for_irange {σ : Type} (body : Nat → σ → Except Failure σ) :
    Nat → Nat → σ → Except Failure σ
  | _, 0, s => Except.ok s
  | start, count + 1, s =>
    match body start s with
    | Except.ok s1 => for_irange body (start + 1) count s1
    | Except.error e => Except.error e

/-- The call `v.emplace_back(x)` / `v.push_back(x)`. -/
def emplace_back {α : Type} (v : List α) (x : α) : List α := v ++ [x]

/-! ## The rules -/

def compute_shape_bitwise_and (self : Tensor) (other : Scalar) : List (List Int) :=
  [self.sizes]

def compute_dtype_bitwise_and (self : Tensor) (other : Scalar) : List ScalarType :=
  [self.scalar_type]

def compute_shape_mean (self : Tensor) (dtype : Option ScalarType) : List (List Int) :=
  [[]]

def compute_dtype_mean (self : Tensor) (dtype : Option ScalarType) : List ScalarType :=
  match dtype with
  | some d => [d]
  | none => [self.scalar_type]

def compute_shape_mv (self vec : Tensor) : Except Failure (List (List Int)) := do
  let d0 ← self.size 0
  pure [[d0]]

def compute_dtype_mv (self vec : Tensor) : List ScalarType :=
  [self.scalar_type]

def compute_shape_native_batch_norm (input : Tensor)
    (weight bias running_mean running_var : Option Tensor)
    (training : Bool) (momentum eps : Float) : Except Failure (List (List Int)) :=
  if running_mean.isSome && running_var.isSome then do
    let rm ← value running_mean
    let rv ← value running_var
    pure [input.sizes, rm.sizes, rv.sizes]
  else if running_mean.isSome || running_var.isSome then
    Except.error Failure.ltc_error_reached
  else do
    let c1 ← vec_at input.sizes 1
    let c2 ← vec_at input.sizes 1
    pure [input.sizes, [c1], [c2]]

def compute_dtype_native_batch_norm (input : Tensor)
    (weight bias running_mean running_var : Option Tensor)
    (training : Bool) (momentum eps : Float) : Except Failure (List ScalarType) :=
  if running_mean.isSome && running_var.isSome then do
    let rm ← value running_mean
    let rv ← value running_var
    pure [input.scalar_type, rm.scalar_type, rv.scalar_type]
  else if running_mean.isSome || running_var.isSome then
    Except.error Failure.ltc_error_reached
  else
    pure [input.scalar_type, input.scalar_type, input.scalar_type]

def compute_shape_native_batch_norm_backward (grad_out input : Tensor)
    (weight running_mean running_var save_mean save_invstd : Option Tensor)
    (train : Bool) (eps : Float) (output_mask : Fin 3 → Bool) :
    Except Failure (List (List Int)) :=
  if weight.isSome then do
    let w1 ← value weight
    let w2 ← value weight
    pure [input.sizes, w1.sizes, w2.sizes]
  else
    Except.error Failure.ltc_check_failed

def compute_dtype_native_batch_norm_backward (grad_out input : Tensor)
    (weight running_mean running_var save_mean save_invstd : Option Tensor)
    (train : Bool) (eps : Float) (output_mask : Fin 3 → Bool) :
    Except Failure (List ScalarType) := do
  let c ← if weight.isSome then (value weight >>= fun w => pure w.defined) else pure false
  if c then do
    let w ← value weight
    pure [input.scalar_type, w.scalar_type, input.scalar_type]
  else
    pure [input.scalar_type, input.scalar_type, input.scalar_type]

def compute_shape_native_layer_norm (input : Tensor) (normalized_shape : List Int)
    (weight bias : Option Tensor) (eps : Float) : Except Failure (List (List Int)) := do
  let input_shape := input.sizes
  let axis := size_t_sub input.dim normalized_shape.length
  let stat_shape : List Int := []
  let stat_shape ← for_irange
    (fun idx st => do
      let x ← vec_at input_shape idx
      pure (emplace_back st x))
    0 axis stat_shape
  let stat_shape ← for_irange
    (fun _ st => pure (emplace_back st 1))
    axis (input.dim - axis) stat_shape
  pure [input_shape, stat_shape, stat_shape]

def compute_dtype_native_layer_norm (input : Tensor) (normalized_shape : List Int)
    (weight bias : Option Tensor) (eps : Float) : List ScalarType :=
  [input.scalar_type, input.scalar_type, input.scalar_type]

def compute_shape_native_layer_norm_backward (grad_out input : Tensor)
    (normalized_shape : List Int) (mean rstd : Tensor) (weight bias : Option Tensor)
    (output_mask : Fin 3 → Bool) : Except Failure (List (List Int)) := do
  let shapes : List (List Int) := []
  let shapes := emplace_back shapes (if output_mask 0 then input.sizes else [])
  let s1 ← if output_mask 1 && weight.isSome then (arrow weight >>= fun w => pure w.sizes)
    else pure []
  let shapes := emplace_back shapes s1
  let s2 ← if output_mask 2 && bias.isSome then (arrow bias >>= fun b => pure b.sizes)
    else pure []
  let shapes := emplace_back shapes s2
  pure shapes

def compute_dtype_native_layer_norm_backward (grad_out input : Tensor)
    (normalized_shape : List Int) (mean rstd : Tensor) (weight bias : Option Tensor)
    (output_mask : Fin 3 → Bool) : Except Failure (List ScalarType) := do
  let dtypes : List ScalarType := []
  let dtypes := emplace_back dtypes input.scalar_type
  let c1 ← if weight.isSome then (arrow weight >>= fun w => pure w.defined) else pure false
  let d1 ← if c1 then (arrow weight >>= fun w => pure w.scalar_type)
    else pure input.scalar_type
  let dtypes := emplace_back dtypes d1
  let c2 ← if bias.isSome then (arrow weight >>= fun w => pure w.defined) else pure false
  let d2 ← if c2 then (arrow bias >>= fun b => pure b.scalar_type)
    else pure input.scalar_type
  let dtypes := emplace_back dtypes d2
  pure dtypes

def compute_shape_smooth_l1_loss (self target : Tensor) (reduction : Int) (beta : Float) :
    List (List Int) :=
  if reduction = Reduction.None then [self.sizes] else [[]]

def compute_dtype_smooth_l1_loss (self target : Tensor) (reduction : Int) (beta : Float) :
    List ScalarType :=
  [self.scalar_type]

def compute_shape_smooth_l1_loss_backward (grad_output self target : Tensor)
    (reduction : Int) (beta : Float) : List (List Int) :=
  [self.sizes, target.sizes]

def compute_dtype_smooth_l1_loss_backward (grad_output self target : Tensor)
    (reduction : Int) (beta : Float) : List ScalarType :=
  [self.scalar_type, target.scalar_type]

def compute_shape_sum (self : Tensor) (dtype : Option ScalarType) : List (List Int) :=
  [[]]

def compute_dtype_sum (self : Tensor) (dtype : Option ScalarType) : List ScalarType :=
  match dtype with
  | some d => [d]
  | none =>
    if isIntegralType self.scalar_type true then [ScalarType.Long]
    else [self.scalar_type]

def compute_shape_trace (self : Tensor) : List (List Int) :=
  [[]]

def compute_dtype_trace (self : Tensor) : List ScalarType :=
  [self.scalar_type]

/-! ## Sample tensors used to instantiate the theorems -/

/-- A defined `Float` tensor of shape `[2, 3, 4, 5]`. -/
def sample_nchw : Tensor := ⟨[2, 3, 4, 5], ScalarType.Float, true, by decide⟩

/-- A defined `Double` tensor of shape `[3]`. -/
def sample_vec : Tensor := ⟨[3], ScalarType.Double, true, by decide⟩

/-- A defined `Half` tensor of shape `[7]`. -/
def sample_half : Tensor := ⟨[7], ScalarType.Half, true, by decide⟩

/-- A defined `Float` tensor of rank 0. -/
def sample_rank0 : Tensor := ⟨[], ScalarType.Float, true, by decide⟩

/-- An undefined tensor handle, tagged `Float`, shape `[3]`. -/
def sample_undef : Tensor := ⟨[3], ScalarType.Float, false, by decide⟩

/-- A defined `Int` tensor of shape `[4, 4]`. -/
def sample_int : Tensor := ⟨[4, 4], ScalarType.Int, true, by decide⟩

/-- A defined `Float` tensor of shape `[8, 4]`. -/
def sample_8x4 : Tensor := ⟨[8, 4], ScalarType.Float, true, by decide⟩

/-- A defined `Long` tensor of shape `[2]`, standing for an unrelated gradient. -/
def sample_long : Tensor := ⟨[2], ScalarType.Long, true, by decide⟩

/-! ## Auxiliary lemmas -/

theorem isIntegralType_true_iff (t : ScalarType) :
    isIntegralType t true = true ↔
      t = ScalarType.Byte ∨ t = ScalarType.Char ∨ t = ScalarType.Short ∨
        t = ScalarType.Int ∨ t = ScalarType.Long ∨ t = ScalarType.Bool := by
  cases t <;> simp [isIntegralType]

theorem isIntegralType_false_of_isFloatingType (t : ScalarType)
    (h : isFloatingType t = true) : isIntegralType t true = false := by
  cases t <;> simp_all [isIntegralType, isFloatingType]

theorem size_t_sub_of_le (a b : Nat) (hb : b ≤ a) (ha : a < 2 ^ 64) :
    size_t_sub a b = a - b := by
  unfold size_t_sub
  have h1 : ((a : Int) - (b : Int)) = ((a - b : Nat) : Int) := by omega
  rw [h1, ← Int.natCast_mod, Int.toNat_ofNat]
  apply Nat.mod_eq_of_lt
  omega

theorem for_irange_copy {v : List Int} {body : Nat → List Int → Except Failure (List Int)}
    (hbody : ∀ idx st x, v[idx]? = some x → body idx st = Except.ok (st ++ [x])) :
    ∀ (count start : Nat) (acc : List Int), start + count ≤ v.length →
      for_irange body start count acc = Except.ok (acc ++ (v.drop start).take count) := by
  intro count
  induction count with
  | zero => intro start acc _; simp [for_irange]
  | succ n ih =>
    intro start acc h
    have hlt : start < v.length := by omega
    have hget : v[start]? = some v[start] := List.getElem?_eq_getElem hlt
    rw [for_irange, hbody start acc _ hget]
    simp only
    rw [ih (start + 1) _ (by omega)]
    have hdrop : (v.drop start).take (n + 1) = v[start] :: (v.drop (start + 1)).take n := by
      rw [List.drop_eq_getElem_cons hlt, List.take_succ_cons]
    rw [hdrop]
    simp

theorem for_irange_fill {c : Int} {body : Nat → List Int → Except Failure (List Int)}
    (hbody : ∀ idx st, body idx st = Except.ok (st ++ [c])) :
    ∀ (count start : Nat) (acc : List Int),
      for_irange body start count acc = Except.ok (acc ++ List.replicate count c) := by
  intro count
  induction count with
  | zero => intro start acc; simp [for_irange]
  | succ n ih =>
    intro start acc
    rw [for_irange, hbody start acc]
    simp only
    rw [ih (start + 1)]
    simp [List.replicate_succ]

theorem vec_at_of_getElem? {v : List Int} {i : Nat} {x : Int} (h : v[i]? = some x) :
    vec_at v i = Except.ok x := by
  simp [vec_at, h]

/-- The layer-norm shape rule in closed form, for a normalized shape no longer than the
input's rank. -/
theorem compute_shape_native_layer_norm_eq (input : Tensor) (normalized_shape : List Int)
    (weight bias : Option Tensor) (eps : Float)
    (hk : normalized_shape.length ≤ input.dim) :
    compute_shape_native_layer_norm input normalized_shape weight bias eps =
      Except.ok [input.sizes,
        input.sizes.take (input.dim - normalized_shape.length)
          ++ List.replicate normalized_shape.length 1,
        input.sizes.take (input.dim - normalized_shape.length)
          ++ List.replicate normalized_shape.length 1] := by
  have hr : input.dim < 2 ^ 64 := by
    have := input.rank_lt
    unfold Tensor.dim
    omega
  have haxis : size_t_sub input.dim normalized_shape.length
      = input.dim - normalized_shape.length := size_t_sub_of_le _ _ hk hr
  have hcount : input.dim - (input.dim - normalized_shape.length)
      = normalized_shape.length := by omega
  have h1 := @for_irange_copy input.sizes
    (fun idx st => do
      let x ← vec_at input.sizes idx
      pure (emplace_back st x))
    (by
      intro idx st x hx
      simp [vec_at_of_getElem? hx, emplace_back, bind, Except.bind, pure, Except.pure])
    (input.dim - normalized_shape.length) 0 [] (by unfold Tensor.dim; omega)
  have h2 := @for_irange_fill 1
    (fun _ st => (pure (emplace_back st 1) : Except Failure (List Int)))
    (by intro idx st; simp [emplace_back, pure, Except.pure])
  unfold compute_shape_native_layer_norm
  simp only [haxis, hcount]
  rw [h1]
  simp only [bind, Except.bind]
  rw [h2]
  simp [pure, Except.pure]

theorem compute_shape_mv_length (self vec : Tensor) (r : List (List Int))
    (h : compute_shape_mv self vec = Except.ok r) : r.length = 1 := by
  unfold compute_shape_mv Tensor.size at h
  cases hs : self.sizes[0]? with
  | none => simp [hs, bind, Except.bind] at h
  | some d =>
    simp [hs, bind, Except.bind, pure, Except.pure] at h
    subst h
    rfl

theorem compute_shape_native_batch_norm_length (input : Tensor)
    (weight bias running_mean running_var : Option Tensor)
    (training : Bool) (momentum eps : Float) (r : List (List Int))
    (h : compute_shape_native_batch_norm input weight bias running_mean running_var
      training momentum eps = Except.ok r) : r.length = 3 := by
  unfold compute_shape_native_batch_norm vec_at at h
  cases running_mean <;> cases running_var <;>
    simp [value, bind, Except.bind, pure, Except.pure] at h
  · cases hs : input.sizes[1]? with
    | none => simp [hs] at h
    | some c =>
      simp [hs] at h
      subst h
      rfl
  · subst h
    rfl

theorem compute_dtype_native_batch_norm_length (input : Tensor)
    (weight bias running_mean running_var : Option Tensor)
    (training : Bool) (momentum eps : Float) (r : List ScalarType)
    (h : compute_dtype_native_batch_norm input weight bias running_mean running_var
      training momentum eps = Except.ok r) : r.length = 3 := by
  unfold compute_dtype_native_batch_norm at h
  cases running_mean <;> cases running_var <;>
    simp [value, bind, Except.bind, pure, Except.pure] at h <;>
    (subst h; rfl)

theorem compute_shape_native_batch_norm_backward_length (grad_out input : Tensor)
    (weight running_mean running_var save_mean save_invstd : Option Tensor)
    (train : Bool) (eps : Float) (output_mask : Fin 3 → Bool) (r : List (List Int))
    (h : compute_shape_native_batch_norm_backward grad_out input weight running_mean
      running_var save_mean save_invstd train eps output_mask = Except.ok r) :
    r.length = 3 := by
  unfold compute_shape_native_batch_norm_backward at h
  cases weight <;>
    simp [value, bind, Except.bind, pure, Except.pure] at h
  subst h
  rfl

theorem compute_dtype_native_batch_norm_backward_length (grad_out input : Tensor)
    (weight running_mean running_var save_mean save_invstd : Option Tensor)
    (train : Bool) (eps : Float) (output_mask : Fin 3 → Bool) (r : List ScalarType)
    (h : compute_dtype_native_batch_norm_backward grad_out input weight running_mean
      running_var save_mean save_invstd train eps output_mask = Except.ok r) :
    r.length = 3 := by
  unfold compute_dtype_native_batch_norm_backward at h
  cases weight with
  | none =>
    simp [bind, Except.bind, pure, Except.pure] at h
    subst h
    rfl
  | some w =>
    cases hd : w.defined <;>
      simp [value, bind, Except.bind, pure, Except.pure, hd] at h <;>
      (subst h; rfl)

theorem compute_shape_native_layer_norm_length (input : Tensor)
    (normalized_shape : List Int) (weight bias : Option Tensor) (eps : Float)
    (r : List (List Int))
    (h : compute_shape_native_layer_norm input normalized_shape weight bias eps
      = Except.ok r) : r.length = 3 := by
  unfold compute_shape_native_layer_norm at h
  simp only [bind, Except.bind] at h
  split at h
  · simp at h
  · split at h
    · simp at h
    · simp [pure, Except.pure] at h
      subst h
      rfl

theorem compute_shape_native_layer_norm_backward_ok (grad_out input : Tensor)
    (normalized_shape : List Int) (mean rstd : Tensor) (weight bias : Option Tensor)
    (output_mask : Fin 3 → Bool) :
    ∃ s0 s1 s2, compute_shape_native_layer_norm_backward grad_out input normalized_shape
      mean rstd weight bias output_mask = Except.ok [s0, s1, s2] := by
  cases weight <;> cases bias <;>
    cases h1 : output_mask 1 <;> cases h2 : output_mask 2 <;>
    simp [compute_shape_native_layer_norm_backward, arrow, emplace_back, bind,
      Except.bind, pure, Except.pure, h1, h2]

theorem compute_dtype_native_layer_norm_backward_length (grad_out input : Tensor)
    (normalized_shape : List Int) (mean rstd : Tensor) (weight bias : Option Tensor)
    (output_mask : Fin 3 → Bool) (r : List ScalarType)
    (h : compute_dtype_native_layer_norm_backward grad_out input normalized_shape mean
      rstd weight bias output_mask = Except.ok r) : r.length = 3 := by
  unfold compute_dtype_native_layer_norm_backward at h
  cases weight with
  | none =>
    cases bias with
    | none =>
      simp [emplace_back, bind, Except.bind, pure, Except.pure] at h
      subst h
      rfl
    | some b =>
      simp [arrow, emplace_back, bind, Except.bind, pure, Except.pure] at h
  | some w =>
    cases bias <;> cases hd : w.defined <;>
      simp [arrow, emplace_back, bind, Except.bind, pure, Except.pure, hd] at h <;>
      (subst h; rfl)

/-! ## Theorems -/

/-- C1: `compute_dtype_sum` returns exactly `[Long]` for every input tensor whose dtype is
an integral type or bool when no dtype override is given, and returns exactly `[X]` for
every input tensor and every override `X`. -/
theorem compute_dtype_sum_promotes_integral (self : Tensor) :
    (isIntegralType self.scalar_type true = true →
      compute_dtype_sum self none = [ScalarType.Long]) ∧
    (∀ X : ScalarType, compute_dtype_sum self (some X) = [X]) := by
  refine ⟨?_, ?_⟩
  · intro h
    simp [compute_dtype_sum, h]
  · intro X
    rfl

theorem compute_dtype_sum_promotes_integral_witness :
    isIntegralType sample_int.scalar_type true = true ∧
      compute_dtype_sum sample_int none = [ScalarType.Long] ∧
      compute_dtype_sum sample_int (some ScalarType.Half) = [ScalarType.Half] :=
  ⟨by decide,
    (compute_dtype_sum_promotes_integral sample_int).1 (by decide),
    (compute_dtype_sum_promotes_integral sample_int).2 ScalarType.Half⟩

/-- C2, as stated, fails: with neither running statistic supplied and an input of rank 0
the shape rule reads index 1 of an empty size vector and returns no result. -/
theorem compute_shape_native_batch_norm_rank0_fails :
    compute_shape_native_batch_norm sample_rank0 none none none none true 0.1 0.5
      = Except.error Failure.vector_out_of_range := by
  rfl

/-- C2 (amended): for the batch-norm forward rules, if exactly one of running_mean /
running_var is supplied both rules fail; if both are supplied both rules return a result;
if neither is supplied the dtype rule returns a result, and the shape rule returns a
result whenever the input has rank at least 2. -/
theorem native_batch_norm_symmetric_optional (input : Tensor)
    (weight bias running_mean running_var : Option Tensor)
    (training : Bool) (momentum eps : Float) :
    (running_mean.isSome ≠ running_var.isSome →
      compute_shape_native_batch_norm input weight bias running_mean running_var
          training momentum eps = Except.error Failure.ltc_error_reached ∧
        compute_dtype_native_batch_norm input weight bias running_mean running_var
          training momentum eps = Except.error Failure.ltc_error_reached) ∧
    (running_mean.isSome = true ∧ running_var.isSome = true →
      (∃ shapes, compute_shape_native_batch_norm input weight bias running_mean running_var
          training momentum eps = Except.ok shapes) ∧
        (∃ dtypes, compute_dtype_native_batch_norm input weight bias running_mean
          running_var training momentum eps = Except.ok dtypes)) ∧
    (running_mean = none ∧ running_var = none →
      (∃ dtypes, compute_dtype_native_batch_norm input weight bias running_mean
          running_var training momentum eps = Except.ok dtypes) ∧
        (2 ≤ input.dim →
          ∃ shapes, compute_shape_native_batch_norm input weight bias running_mean
            running_var training momentum eps = Except.ok shapes)) := by
  refine ⟨?_, ?_, ?_⟩
  · intro h
    cases running_mean <;> cases running_var <;>
      simp_all [compute_shape_native_batch_norm, compute_dtype_native_batch_norm]
  · rintro ⟨h1, h2⟩
    cases running_mean <;> cases running_var <;>
      simp_all [compute_shape_native_batch_norm, compute_dtype_native_batch_norm, value,
        bind, Except.bind, pure, Except.pure]
  · rintro ⟨rfl, rfl⟩
    refine ⟨⟨_, rfl⟩, ?_⟩
    intro hrank
    have hlt : 1 < input.sizes.length := hrank
    have hget : input.sizes[1]? = some input.sizes[1] := List.getElem?_eq_getElem hlt
    refine ⟨[input.sizes, [input.sizes[1]], [input.sizes[1]]], ?_⟩
    simp [compute_shape_native_batch_norm, vec_at_of_getElem? hget, bind, Except.bind,
      pure, Except.pure]

theorem native_batch_norm_symmetric_optional_witness :
    (compute_shape_native_batch_norm sample_nchw none none (some sample_vec) none
          true 0.1 0.5 = Except.error Failure.ltc_error_reached ∧
        compute_dtype_native_batch_norm sample_nchw none none (some sample_vec) none
          true 0.1 0.5 = Except.error Failure.ltc_error_reached) ∧
    ((∃ shapes, compute_shape_native_batch_norm sample_nchw none none (some sample_vec)
          (some sample_vec) true 0.1 0.5 = Except.ok shapes) ∧
        (∃ dtypes, compute_dtype_native_batch_norm sample_nchw none none (some sample_vec)
          (some sample_vec) true 0.1 0.5 = Except.ok dtypes)) ∧
    (∃ shapes, compute_shape_native_batch_norm sample_nchw none none none none
          true 0.1 0.5 = Except.ok shapes) :=
  ⟨(native_batch_norm_symmetric_optional sample_nchw none none (some sample_vec) none
      true 0.1 0.5).1 (by decide),
    (native_batch_norm_symmetric_optional sample_nchw none none (some sample_vec)
      (some sample_vec) true 0.1 0.5).2.1 ⟨rfl, rfl⟩,
    ((native_batch_norm_symmetric_optional sample_nchw none none none none
      true 0.1 0.5).2.2 ⟨rfl, rfl⟩).2 (by decide)⟩

/-- C3: for every input of rank r and every normalized_shape of length k with k ≤ r,
`compute_shape_native_layer_norm` returns exactly `[input shape, S, S]` where `S` is the
first r - k dimensions of the input shape followed by k ones, so that `S` has length r;
in particular an input `[N, C, H, W]` with k = 2 gives `S = [N, C, 1, 1]`. -/
theorem compute_shape_native_layer_norm_stat_shape (input : Tensor)
    (normalized_shape : List Int) (weight bias : Option Tensor) (eps : Float)
    (hk : normalized_shape.length ≤ input.dim) :
    compute_shape_native_layer_norm input normalized_shape weight bias eps =
        Except.ok [input.sizes,
          input.sizes.take (input.dim - normalized_shape.length)
            ++ List.replicate normalized_shape.length 1,
          input.sizes.take (input.dim - normalized_shape.length)
            ++ List.replicate normalized_shape.length 1] ∧
      (input.sizes.take (input.dim - normalized_shape.length)
            ++ List.replicate normalized_shape.length 1).length = input.dim ∧
      (∀ N C H W : Int, input.sizes = [N, C, H, W] → normalized_shape.length = 2 →
        compute_shape_native_layer_norm input normalized_shape weight bias eps =
          Except.ok [[N, C, H, W], [N, C, 1, 1], [N, C, 1, 1]]) := by
  have heq := compute_shape_native_layer_norm_eq input normalized_shape weight bias eps hk
  refine ⟨heq, ?_, ?_⟩
  · unfold Tensor.dim at hk ⊢
    simp [List.length_take]
    omega
  · intro N C H W hs hlen
    rw [heq]
    simp [Tensor.dim, hs, hlen, List.replicate]

theorem compute_shape_native_layer_norm_stat_shape_witness :
    [(4 : Int), 5].length ≤ sample_nchw.dim ∧
      compute_shape_native_layer_norm sample_nchw [4, 5] none none 0.5 =
        Except.ok [[2, 3, 4, 5], [2, 3, 1, 1], [2, 3, 1, 1]] :=
  ⟨by decide,
    (compute_shape_native_layer_norm_stat_shape sample_nchw [4, 5] none none 0.5
      (by decide)).2.2 2 3 4 5 rfl rfl⟩

/-- C4: `compute_shape_native_layer_norm_backward` returns, for every input, weight, bias
and output mask, exactly three entries: slot 0 is the input's shape if mask[0] and the
empty shape otherwise; slot 1 is weight's shape if mask[1] and weight is supplied and the
empty shape otherwise; slot 2 is bias's shape if mask[2] and bias is supplied and the
empty shape otherwise. In particular a mask with mask[0] set and mask[1], mask[2] clear
(that is `[true, false, false]`) gives `[input shape, [], []]` whether or not weight and
bias were supplied. -/
theorem compute_shape_native_layer_norm_backward_gated (grad_out input : Tensor)
    (normalized_shape : List Int) (mean rstd : Tensor) (weight bias : Option Tensor)
    (output_mask : Fin 3 → Bool) :
    compute_shape_native_layer_norm_backward grad_out input normalized_shape mean rstd
        weight bias output_mask =
      Except.ok [
        if output_mask 0 then input.sizes else [],
        match weight with
        | some w => if output_mask 1 then w.sizes else []
        | none => [],
        match bias with
        | some b => if output_mask 2 then b.sizes else []
        | none => []] ∧
    compute_shape_native_layer_norm_backward grad_out input normalized_shape mean rstd
        weight bias ![true, false, false] = Except.ok [input.sizes, [], []] := by
  constructor
  · cases weight <;> cases bias <;>
      cases h1 : output_mask 1 <;> cases h2 : output_mask 2 <;>
      simp [compute_shape_native_layer_norm_backward, arrow, emplace_back, bind,
        Except.bind, pure, Except.pure, h1, h2]
  · cases weight <;> cases bias <;>
      simp [compute_shape_native_layer_norm_backward, arrow, emplace_back, bind,
        Except.bind, pure, Except.pure]

/-- C5, as stated, fails: with output mask `[true, false, false]` and a weight of shape
`[3]` supplied, slots 1 and 2 of the batch-norm backward shape rule are `[3]`, not the
empty placeholder shape. -/
theorem compute_shape_native_batch_norm_backward_mask_not_applied :
    compute_shape_native_batch_norm_backward sample_nchw sample_nchw (some sample_vec)
        none none none none true 0.5 ![true, false, false]
      = Except.ok [[2, 3, 4, 5], [3], [3]] := by
  rfl

/-- C5 (amended): `compute_shape_native_batch_norm_backward` does not gate its outputs by
the output mask: for every input and every weight argument the result is the same for
any two masks, and for every supplied weight and every mask, in particular
`[true, false, false]`, slots 1 and 2 both carry the weight's shape. -/
theorem compute_shape_native_batch_norm_backward_ignores_mask (grad_out input : Tensor)
    (weight running_mean running_var save_mean save_invstd : Option Tensor)
    (train : Bool) (eps : Float) (output_mask other_mask : Fin 3 → Bool) :
    compute_shape_native_batch_norm_backward grad_out input weight running_mean
        running_var save_mean save_invstd train eps output_mask =
      compute_shape_native_batch_norm_backward grad_out input weight running_mean
        running_var save_mean save_invstd train eps other_mask ∧
    (∀ w : Tensor,
      compute_shape_native_batch_norm_backward grad_out input (some w) running_mean
          running_var save_mean save_invstd train eps output_mask =
        Except.ok [input.sizes, w.sizes, w.sizes] ∧
      compute_shape_native_batch_norm_backward grad_out input (some w) running_mean
          running_var save_mean save_invstd train eps ![true, false, false] =
        Except.ok [input.sizes, w.sizes, w.sizes]) := by
  refine ⟨rfl, ?_⟩
  intro w
  exact ⟨rfl, rfl⟩

/-- C6, evaluated at the failing input: with a supplied-but-undefined `Float` weight and
a supplied, defined `Double` bias on a `Float` input, slot 2 of the layer-norm backward
dtype rule is the input's `Float`, where the bias's own dtype `Double` is expected; and
with a defined weight and a supplied-but-undefined bias, slot 2 is the undefined bias's
dtype tag rather than the input's dtype. -/
theorem compute_dtype_native_layer_norm_backward_bias_slot_defect :
    compute_dtype_native_layer_norm_backward sample_nchw sample_nchw [4, 5] sample_vec
        sample_vec (some sample_undef) (some sample_vec) ![true, true, true]
      = Except.ok [ScalarType.Float, ScalarType.Float, ScalarType.Float] ∧
    sample_vec.defined = true ∧ sample_vec.scalar_type = ScalarType.Double ∧
    compute_dtype_native_layer_norm_backward sample_int sample_int [4] sample_vec
        sample_vec (some sample_vec) (some sample_undef) ![true, true, true]
      = Except.ok [ScalarType.Int, ScalarType.Double, ScalarType.Float] ∧
    sample_undef.defined = false := by
  decide

/-- C7: in `compute_dtype_native_layer_norm_backward` with both weight and bias supplied,
slot 2 (the bias slot) is decided by the weight tensor's definedness and not the bias
tensor's: it is bias's dtype when weight is defined and input's dtype when weight is
undefined, and the result is the same whatever bias's own definedness flag is. -/
theorem compute_dtype_native_layer_norm_backward_bias_follows_weight
    (grad_out input : Tensor) (normalized_shape : List Int) (mean rstd : Tensor)
    (w b : Tensor) (output_mask : Fin 3 → Bool) :
    compute_dtype_native_layer_norm_backward grad_out input normalized_shape mean rstd
        (some w) (some b) output_mask =
      Except.ok [input.scalar_type,
        if w.defined then w.scalar_type else input.scalar_type,
        if w.defined then b.scalar_type else input.scalar_type] ∧
    (∀ flag : Bool,
      compute_dtype_native_layer_norm_backward grad_out input normalized_shape mean rstd
          (some w) (some ⟨b.sizes, b.scalar_type, flag, b.rank_lt⟩) output_mask =
        compute_dtype_native_layer_norm_backward grad_out input normalized_shape mean rstd
          (some w) (some b) output_mask) := by
  constructor
  · cases h : w.defined <;>
      simp [compute_dtype_native_layer_norm_backward, arrow, emplace_back, bind,
        Except.bind, pure, Except.pure, h]
  · intro flag
    cases h : w.defined <;>
      simp [compute_dtype_native_layer_norm_backward, arrow, emplace_back, bind,
        Except.bind, pure, Except.pure, h]

/-- C8: with neither running_mean nor running_var supplied, for every input of rank at
least 2 `compute_shape_native_batch_norm` returns exactly `[input shape, [C], [C]]` where
`C` is the input's dimension at index 1 (an input `[N, C, H, W]` gives statistic shapes
`[C]` and `[C]`), and `compute_dtype_native_batch_norm` returns
`[input dtype, input dtype, input dtype]`. -/
theorem native_batch_norm_no_running_stats (input : Tensor) (weight bias : Option Tensor)
    (training : Bool) (momentum eps : Float) (hrank : 2 ≤ input.dim) :
    (∃ C : Int, input.sizes[1]? = some C ∧
      compute_shape_native_batch_norm input weight bias none none training momentum eps
        = Except.ok [input.sizes, [C], [C]]) ∧
    (∀ N C H W : Int, input.sizes = [N, C, H, W] →
      compute_shape_native_batch_norm input weight bias none none training momentum eps
        = Except.ok [[N, C, H, W], [C], [C]]) ∧
    compute_dtype_native_batch_norm input weight bias none none training momentum eps
      = Except.ok [input.scalar_type, input.scalar_type, input.scalar_type] := by
  have hlt : 1 < input.sizes.length := hrank
  have hget : input.sizes[1]? = some input.sizes[1] := List.getElem?_eq_getElem hlt
  refine ⟨⟨input.sizes[1], hget, ?_⟩, ?_, rfl⟩
  · simp [compute_shape_native_batch_norm, vec_at_of_getElem? hget, bind, Except.bind,
      pure, Except.pure]
  · intro N C H W hs
    simp [compute_shape_native_batch_norm, vec_at, hs, bind, Except.bind, pure,
      Except.pure]

theorem native_batch_norm_no_running_stats_witness :
    2 ≤ sample_nchw.dim ∧
      compute_shape_native_batch_norm sample_nchw none none none none true 0.1 0.5
        = Except.ok [[2, 3, 4, 5], [3], [3]] ∧
      compute_dtype_native_batch_norm sample_nchw none none none none true 0.1 0.5
        = Except.ok [ScalarType.Float, ScalarType.Float, ScalarType.Float] :=
  ⟨by decide,
    (native_batch_norm_no_running_stats sample_nchw none none true 0.1 0.5
      (by decide)).2.1 2 3 4 5 rfl,
    (native_batch_norm_no_running_stats sample_nchw none none true 0.1 0.5
      (by decide)).2.2⟩

/-- C9: with both running_mean and running_var supplied, for every input the batch-norm
forward shape rule returns exactly `[input shape, running_mean's shape, running_var's
shape]` and the dtype rule returns exactly `[input dtype, running_mean's dtype,
running_var's dtype]`: each output's dtype comes from the tensor that supplies its
shape. -/
theorem native_batch_norm_with_running_stats (input : Tensor) (weight bias : Option Tensor)
    (rm rv : Tensor) (training : Bool) (momentum eps : Float) :
    compute_shape_native_batch_norm input weight bias (some rm) (some rv) training
        momentum eps = Except.ok [input.sizes, rm.sizes, rv.sizes] ∧
    compute_dtype_native_batch_norm input weight bias (some rm) (some rv) training
        momentum eps = Except.ok [input.scalar_type, rm.scalar_type, rv.scalar_type] := by
  exact ⟨rfl, rfl⟩

/-- C10: `compute_shape_native_batch_norm_backward` fails if and only if weight is absent;
when weight is supplied it returns exactly `[input shape, weight shape, weight shape]`,
for every grad_out, running and saved statistics, train flag, eps and output mask. -/
theorem compute_shape_native_batch_norm_backward_requires_weight (grad_out input : Tensor)
    (weight running_mean running_var save_mean save_invstd : Option Tensor)
    (train : Bool) (eps : Float) (output_mask : Fin 3 → Bool) :
    ((∃ e, compute_shape_native_batch_norm_backward grad_out input weight running_mean
        running_var save_mean save_invstd train eps output_mask = Except.error e)
      ↔ weight = none) ∧
    (∀ w : Tensor, weight = some w →
      compute_shape_native_batch_norm_backward grad_out input weight running_mean
        running_var save_mean save_invstd train eps output_mask
        = Except.ok [input.sizes, w.sizes, w.sizes]) := by
  constructor
  · cases weight with
    | none =>
      simp [compute_shape_native_batch_norm_backward]
    | some w =>
      simp [compute_shape_native_batch_norm_backward, value, bind, Except.bind, pure,
        Except.pure]
  · rintro w rfl
    rfl

theorem compute_shape_native_batch_norm_backward_requires_weight_witness :
    compute_shape_native_batch_norm_backward sample_nchw sample_nchw (some sample_vec)
        none none none none true 0.5 ![true, true, true]
      = Except.ok [[2, 3, 4, 5], [3], [3]] :=
  (compute_shape_native_batch_norm_backward_requires_weight sample_nchw sample_nchw
    (some sample_vec) none none none none true 0.5 ![true, true, true]).2 sample_vec rfl

/-- C11: `compute_dtype_native_batch_norm_backward` returns, for every input,
`[input dtype, W, input dtype]` where `W` is weight's dtype if weight is supplied and
defined, and input's dtype if weight is absent or supplied but undefined; the rule never
fails and ignores the output mask. -/
theorem compute_dtype_native_batch_norm_backward_eq (grad_out input : Tensor)
    (weight running_mean running_var save_mean save_invstd : Option Tensor)
    (train : Bool) (eps : Float) (output_mask other_mask : Fin 3 → Bool) :
    compute_dtype_native_batch_norm_backward grad_out input weight running_mean
        running_var save_mean save_invstd train eps output_mask =
      Except.ok [input.scalar_type,
        match weight with
        | some w => if w.defined then w.scalar_type else input.scalar_type
        | none => input.scalar_type,
        input.scalar_type] ∧
    compute_dtype_native_batch_norm_backward grad_out input weight running_mean
        running_var save_mean save_invstd train eps output_mask =
      compute_dtype_native_batch_norm_backward grad_out input weight running_mean
        running_var save_mean save_invstd train eps other_mask := by
  refine ⟨?_, rfl⟩
  cases weight with
  | none => rfl
  | some w =>
    cases h : w.defined <;>
      simp [compute_dtype_native_batch_norm_backward, value, bind, Except.bind, pure,
        Except.pure, h]

/-- C12: for every grad_output, self, target, reduction mode and beta,
`compute_shape_smooth_l1_loss_backward` returns exactly `[self's shape, target's shape]`
and `compute_dtype_smooth_l1_loss_backward` returns exactly `[self's dtype, target's
dtype]`; neither result depends on grad_output, on the reduction mode or on beta, and
self `[8, 4]`, target `[8, 4]` gives `[[8, 4], [8, 4]]` for any reduction. -/
theorem smooth_l1_loss_backward_tracks_forward_inputs (grad_output self target : Tensor)
    (reduction : Int) (beta : Float) :
    compute_shape_smooth_l1_loss_backward grad_output self target reduction beta
      = [self.sizes, target.sizes] ∧
    compute_dtype_smooth_l1_loss_backward grad_output self target reduction beta
      = [self.scalar_type, target.scalar_type] ∧
    (∀ (other_grad : Tensor) (other_reduction : Int) (other_beta : Float),
      compute_shape_smooth_l1_loss_backward other_grad self target other_reduction
          other_beta =
        compute_shape_smooth_l1_loss_backward grad_output self target reduction beta ∧
      compute_dtype_smooth_l1_loss_backward other_grad self target other_reduction
          other_beta =
        compute_dtype_smooth_l1_loss_backward grad_output self target reduction beta) ∧
    (self.sizes = [8, 4] → target.sizes = [8, 4] →
      compute_shape_smooth_l1_loss_backward grad_output self target reduction beta
        = [[8, 4], [8, 4]]) := by
  refine ⟨rfl, rfl, fun _ _ _ => ⟨rfl, rfl⟩, ?_⟩
  intro hs ht
  simp [compute_shape_smooth_l1_loss_backward, hs, ht]

theorem smooth_l1_loss_backward_tracks_forward_inputs_witness :
    compute_shape_smooth_l1_loss_backward sample_long sample_8x4 sample_8x4
        Reduction.Mean 0.5 = [[8, 4], [8, 4]] :=
  (smooth_l1_loss_backward_tracks_forward_inputs sample_long sample_8x4 sample_8x4
    Reduction.Mean 0.5).2.2.2 rfl rfl

/-- C13: for every self, target and beta, `compute_shape_smooth_l1_loss` returns
`[self's shape]` when the reduction mode is None and `[[]]`, a single rank-0 shape, for
every other reduction value (Mean, Sum or any other integer);
`compute_dtype_smooth_l1_loss` returns `[self's dtype]` for every reduction. -/
theorem smooth_l1_loss_forward_rule (self target : Tensor) (reduction : Int)
    (beta : Float) :
    compute_shape_smooth_l1_loss self target Reduction.None beta = [self.sizes] ∧
    (reduction ≠ Reduction.None →
      compute_shape_smooth_l1_loss self target reduction beta = [[]]) ∧
    compute_shape_smooth_l1_loss self target Reduction.Mean beta = [[]] ∧
    compute_shape_smooth_l1_loss self target Reduction.Sum beta = [[]] ∧
    compute_dtype_smooth_l1_loss self target reduction beta = [self.scalar_type] := by
  refine ⟨?_, ?_, ?_, ?_, rfl⟩
  · simp [compute_shape_smooth_l1_loss]
  · intro h
    simp [compute_shape_smooth_l1_loss, h]
  · simp [compute_shape_smooth_l1_loss, Reduction.Mean, Reduction.None]
  · simp [compute_shape_smooth_l1_loss, Reduction.Sum, Reduction.None]

theorem smooth_l1_loss_forward_rule_witness :
    (7 : Int) ≠ Reduction.None ∧
      compute_shape_smooth_l1_loss sample_8x4 sample_8x4 7 0.5 = [[]] :=
  ⟨by decide,
    (smooth_l1_loss_forward_rule sample_8x4 sample_8x4 7 0.5).2.1 (by decide)⟩

/-- C14: for each of `compute_dtype_mean`, `compute_dtype_sum` and `compute_dtype_trace`,
for every input tensor with a floating-point dtype and no dtype override, the result is
exactly `[input dtype]`. -/
theorem floating_reduction_keeps_dtype (self : Tensor)
    (hfloat : isFloatingType self.scalar_type = true) :
    compute_dtype_mean self none = [self.scalar_type] ∧
    compute_dtype_sum self none = [self.scalar_type] ∧
    compute_dtype_trace self = [self.scalar_type] := by
  refine ⟨rfl, ?_, rfl⟩
  have hint := isIntegralType_false_of_isFloatingType self.scalar_type hfloat
  simp [compute_dtype_sum, hint]

theorem floating_reduction_keeps_dtype_witness :
    isFloatingType sample_half.scalar_type = true ∧
      compute_dtype_mean sample_half none = [ScalarType.Half] ∧
      compute_dtype_sum sample_half none = [ScalarType.Half] ∧
      compute_dtype_trace sample_half = [ScalarType.Half] :=
  ⟨by decide, floating_reduction_keeps_dtype sample_half (by decide)⟩

/-- C15: for every operation in the file and every argument list on which its rules
return a result, the shape rule's result and the dtype rule's result have the same
length, equal to the operation's fixed arity: 1 for bitwise_and, mean, mv,
smooth_l1_loss, sum and trace; 2 for smooth_l1_loss_backward; 3 for native_batch_norm,
native_batch_norm_backward, native_layer_norm and native_layer_norm_backward. -/
theorem output_arity_fixed (self vec target grad_output input grad_out mean rstd : Tensor)
    (other : Scalar) (dtype : Option ScalarType)
    (weight bias running_mean running_var save_mean save_invstd : Option Tensor)
    (training train : Bool) (momentum eps beta : Float) (reduction : Int)
    (normalized_shape : List Int) (output_mask : Fin 3 → Bool) :
    ((compute_shape_bitwise_and self other).length = 1 ∧
      (compute_dtype_bitwise_and self other).length = 1) ∧
    ((compute_shape_mean self dtype).length = 1 ∧
      (compute_dtype_mean self dtype).length = 1) ∧
    ((∀ shapes, compute_shape_mv self vec = Except.ok shapes → shapes.length = 1) ∧
      (compute_dtype_mv self vec).length = 1) ∧
    ((compute_shape_smooth_l1_loss self target reduction beta).length = 1 ∧
      (compute_dtype_smooth_l1_loss self target reduction beta).length = 1) ∧
    ((compute_shape_sum self dtype).length = 1 ∧
      (compute_dtype_sum self dtype).length = 1) ∧
    ((compute_shape_trace self).length = 1 ∧ (compute_dtype_trace self).length = 1) ∧
    ((compute_shape_smooth_l1_loss_backward grad_output self target reduction beta).length
        = 2 ∧
      (compute_dtype_smooth_l1_loss_backward grad_output self target reduction beta).length
        = 2) ∧
    ((∀ shapes, compute_shape_native_batch_norm input weight bias running_mean
          running_var training momentum eps = Except.ok shapes → shapes.length = 3) ∧
      (∀ dtypes, compute_dtype_native_batch_norm input weight bias running_mean
          running_var training momentum eps = Except.ok dtypes → dtypes.length = 3)) ∧
    ((∀ shapes, compute_shape_native_batch_norm_backward grad_out input weight
          running_mean running_var save_mean save_invstd train eps output_mask
          = Except.ok shapes → shapes.length = 3) ∧
      (∀ dtypes, compute_dtype_native_batch_norm_backward grad_out input weight
          running_mean running_var save_mean save_invstd train eps output_mask
          = Except.ok dtypes → dtypes.length = 3)) ∧
    ((∀ shapes, compute_shape_native_layer_norm input normalized_shape weight bias eps
          = Except.ok shapes → shapes.length = 3) ∧
      (compute_dtype_native_layer_norm input normalized_shape weight bias eps).length
        = 3) ∧
    ((∀ shapes, compute_shape_native_layer_norm_backward grad_out input normalized_shape
          mean rstd weight bias output_mask = Except.ok shapes → shapes.length = 3) ∧
      (∀ dtypes, compute_dtype_native_layer_norm_backward grad_out input normalized_shape
          mean rstd weight bias output_mask = Except.ok dtypes → dtypes.length = 3)) := by
  refine ⟨⟨rfl, rfl⟩, ⟨rfl, ?_⟩, ⟨?_, rfl⟩, ⟨?_, rfl⟩, ⟨rfl, ?_⟩, ⟨rfl, rfl⟩, ⟨rfl, rfl⟩,
    ⟨?_, ?_⟩, ⟨?_, ?_⟩, ⟨?_, rfl⟩, ⟨?_, ?_⟩⟩
  · cases dtype <;> rfl
  · exact compute_shape_mv_length self vec
  · unfold compute_shape_smooth_l1_loss
    split <;> rfl
  · cases dtype with
    | some d => rfl
    | none =>
      unfold compute_dtype_sum
      simp only
      split <;> rfl
  · exact compute_shape_native_batch_norm_length _ _ _ _ _ _ _ _
  · exact compute_dtype_native_batch_norm_length _ _ _ _ _ _ _ _
  · exact compute_shape_native_batch_norm_backward_length _ _ _ _ _ _ _ _ _ _
  · exact compute_dtype_native_batch_norm_backward_length _ _ _ _ _ _ _ _ _ _
  · exact compute_shape_native_layer_norm_length _ _ _ _ _
  · intro shapes h
    obtain ⟨s0, s1, s2, hs⟩ := compute_shape_native_layer_norm_backward_ok grad_out input
      normalized_shape mean rstd weight bias output_mask
    rw [hs] at h
    injection h with h
    subst h
    rfl
  · exact compute_dtype_native_layer_norm_backward_length _ _ _ _ _ _ _ _

theorem output_arity_fixed_witness :
    compute_shape_mv sample_nchw sample_vec = Except.ok [[2]] ∧
      compute_shape_native_batch_norm sample_nchw none none none none true 0.1 0.5
        = Except.ok [[2, 3, 4, 5], [3], [3]] ∧
      ([[2]] : List (List Int)).length = 1 ∧
      ([[2, 3, 4, 5], [3], [3]] : List (List Int)).length = 3 :=
  ⟨rfl, rfl,
    (output_arity_fixed sample_nchw sample_vec sample_8x4 sample_long sample_nchw
      sample_nchw sample_vec sample_vec (Scalar.ofInt 1) none none none none none none
      none true true 0.1 0.5 1.0 Reduction.Mean [4, 5] ![true, true, true]).2.2.1.1
      [[2]] rfl,
    (output_arity_fixed sample_nchw sample_vec sample_8x4 sample_long sample_nchw
      sample_nchw sample_vec sample_vec (Scalar.ofInt 1) none none none none none none
      none true true 0.1 0.5 1.0 Reduction.Mean [4, 5] ![true, true, true]).2.2.2.2.2.2.2.1.1
      [[2, 3, 4, 5], [3], [3]] rfl⟩

/-- C16: for every input tensor (any rank, any shape) and any dtype override,
`compute_shape_mean`, `compute_shape_sum` and `compute_shape_trace` each return exactly
`[[]]`, a single rank-0 (empty) shape. -/
theorem full_reduction_shape_rank0 (self : Tensor) (dtype : Option ScalarType) :
    compute_shape_mean self dtype = [[]] ∧
    compute_shape_sum self dtype = [[]] ∧
    compute_shape_trace self = [[]] :=
  ⟨rfl, rfl, rfl⟩

/-- C17: for every matrix operand self of rank at least 1 and every vec,
`compute_shape_mv` returns exactly `[[d0]]` where `d0` is self's first dimension, and
`compute_dtype_mv` returns exactly `[self's dtype]`; neither result depends on vec. -/
theorem mv_rule (self vec : Tensor) (hrank : 1 ≤ self.dim) :
    (∃ d0 : Int, self.sizes[0]? = some d0 ∧
      compute_shape_mv self vec = Except.ok [[d0]]) ∧
    compute_dtype_mv self vec = [self.scalar_type] ∧
    (∀ other_vec : Tensor,
      compute_shape_mv self other_vec = compute_shape_mv self vec ∧
      compute_dtype_mv self other_vec = compute_dtype_mv self vec) := by
  have hlt : 0 < self.sizes.length := hrank
  have hget : self.sizes[0]? = some self.sizes[0] := List.getElem?_eq_getElem hlt
  refine ⟨⟨self.sizes[0], hget, ?_⟩, rfl, fun _ => ⟨rfl, rfl⟩⟩
  simp [compute_shape_mv, Tensor.size, hget, bind, Except.bind, pure, Except.pure]

theorem mv_rule_witness :
    1 ≤ sample_nchw.dim ∧
      (∃ d0 : Int, sample_nchw.sizes[0]? = some d0 ∧
        compute_shape_mv sample_nchw sample_vec = Except.ok [[d0]]) :=
  ⟨by decide, (mv_rule sample_nchw sample_vec (by decide)).1⟩

/-- C18, as stated, fails: with weight absent the batch-norm backward shape rule fails
while the dtype rule returns a result; and with weight absent and bias supplied the
layer-norm backward shape rule returns a result while the dtype rule does not. -/
theorem backward_rules_disagree_on_success :
    (compute_shape_native_batch_norm_backward sample_nchw sample_nchw none none none
        none none true 0.5 ![true, true, true] = Except.error Failure.ltc_check_failed ∧
      compute_dtype_native_batch_norm_backward sample_nchw sample_nchw none none none
        none none true 0.5 ![true, true, true]
        = Except.ok [ScalarType.Float, ScalarType.Float, ScalarType.Float]) ∧
    (compute_shape_native_layer_norm_backward sample_nchw sample_nchw [4, 5] sample_vec
        sample_vec none (some sample_vec) ![true, true, true]
        = Except.ok [[2, 3, 4, 5], [], [3]] ∧
      compute_dtype_native_layer_norm_backward sample_nchw sample_nchw [4, 5] sample_vec
        sample_vec none (some sample_vec) ![true, true, true]
        = Except.error Failure.bad_optional_access) := by
  decide

/-- C18 (amended): for batch-norm backward the dtype rule returns a result on every
argument list and the shape rule returns a result exactly when weight is supplied; for
layer-norm backward the shape rule returns a result on every argument list and the dtype
rule returns a result whenever weight is supplied or bias is absent. -/
theorem backward_rules_success_conditions (grad_out input mean rstd : Tensor)
    (normalized_shape : List Int)
    (weight bias running_mean running_var save_mean save_invstd : Option Tensor)
    (train : Bool) (eps : Float) (output_mask : Fin 3 → Bool) :
    (∃ dtypes, compute_dtype_native_batch_norm_backward grad_out input weight
        running_mean running_var save_mean save_invstd train eps output_mask
        = Except.ok dtypes) ∧
    ((∃ shapes, compute_shape_native_batch_norm_backward grad_out input weight
        running_mean running_var save_mean save_invstd train eps output_mask
        = Except.ok shapes) ↔ weight.isSome = true) ∧
    (∃ shapes, compute_shape_native_layer_norm_backward grad_out input normalized_shape
        mean rstd weight bias output_mask = Except.ok shapes) ∧
    (weight.isSome = true ∨ bias = none →
      ∃ dtypes, compute_dtype_native_layer_norm_backward grad_out input normalized_shape
        mean rstd weight bias output_mask = Except.ok dtypes) := by
  refine ⟨?_, ?_, ?_, ?_⟩
  · cases weight with
    | none => exact ⟨_, rfl⟩
    | some w =>
      cases h : w.defined <;>
        simp [compute_dtype_native_batch_norm_backward, value, bind, Except.bind, pure,
          Except.pure, h]
  · cases weight <;>
      simp [compute_shape_native_batch_norm_backward, value, bind, Except.bind, pure,
        Except.pure]
  · obtain ⟨s0, s1, s2, hs⟩ := compute_shape_native_layer_norm_backward_ok grad_out input
      normalized_shape mean rstd weight bias output_mask
    exact ⟨_, hs⟩
  · intro h
    cases weight with
    | none =>
      cases bias with
      | none =>
        simp [compute_dtype_native_layer_norm_backward, emplace_back, bind, Except.bind,
          pure, Except.pure]
      | some b => simp at h
    | some w =>
      cases bias <;> cases hd : w.defined <;>
        simp [compute_dtype_native_layer_norm_backward, arrow, emplace_back, bind,
          Except.bind, pure, Except.pure, hd]

theorem backward_rules_success_conditions_witness :
    ∃ dtypes, compute_dtype_native_layer_norm_backward sample_nchw sample_nchw [4, 5]
      sample_vec sample_vec (some sample_undef) (some sample_vec) ![true, false, false]
      = Except.ok dtypes :=
  (backward_rules_success_conditions sample_nchw sample_nchw sample_vec sample_vec [4, 5]
    (some sample_undef) (some sample_vec) none none none none true 0.5
    ![true, false, false]).2.2.2 (Or.inl rfl)

/-- C19: `compute_shape_native_layer_norm` depends on normalized_shape only through its
length: for every input and any two normalized_shape arguments of the same length k with
k ≤ rank(input), whatever their element values, and any weight, bias and eps on either
side, the two calls return the same result, and that result is a returned value. -/
theorem compute_shape_native_layer_norm_length_only (input : Tensor)
    (normalized_shape other_shape : List Int)
    (weight bias other_weight other_bias : Option Tensor) (eps other_eps : Float)
    (hlen : normalized_shape.length = other_shape.length)
    (hk : normalized_shape.length ≤ input.dim) :
    compute_shape_native_layer_norm input normalized_shape weight bias eps =
      compute_shape_native_layer_norm input other_shape other_weight other_bias
        other_eps ∧
    ∃ shapes, compute_shape_native_layer_norm input normalized_shape weight bias eps
      = Except.ok shapes := by
  have h1 := compute_shape_native_layer_norm_eq input normalized_shape weight bias eps hk
  have h2 := compute_shape_native_layer_norm_eq input other_shape other_weight other_bias
    other_eps (hlen ▸ hk)
  refine ⟨?_, _, h1⟩
  rw [h1, h2, hlen]

theorem compute_shape_native_layer_norm_length_only_witness :
    compute_shape_native_layer_norm sample_nchw [4, 5] none none 0.5 =
      compute_shape_native_layer_norm sample_nchw [100, -7] (some sample_vec)
        (some sample_half) 0.1 :=
  (compute_shape_native_layer_norm_length_only sample_nchw [4, 5] [100, -7] none none
    (some sample_vec) (some sample_half) 0.5 0.1 rfl (by decide)).1

/-- C20: promotion to the 64-bit signed integer type is applied by sum only: for every
input tensor with an integral or bool dtype and no override, `compute_dtype_mean` and
`compute_dtype_trace` return `[input dtype]` unchanged (so not `[Long]` unless the input
is itself `Long`) while `compute_dtype_sum` returns `[Long]`, and `compute_dtype_mean`
with an override `X` returns `[X]`. -/
theorem integral_promotion_is_sum_only (self : Tensor) (X : ScalarType)
    (hint : isIntegralType self.scalar_type true = true) :
    compute_dtype_mean self none = [self.scalar_type] ∧
    compute_dtype_trace self = [self.scalar_type] ∧
    compute_dtype_mean self (some X) = [X] ∧
    compute_dtype_sum self none = [ScalarType.Long] ∧
    (self.scalar_type ≠ ScalarType.Long →
      compute_dtype_mean self none ≠ [ScalarType.Long] ∧
      compute_dtype_trace self ≠ [ScalarType.Long]) := by
  refine ⟨rfl, rfl, rfl, ?_, ?_⟩
  · simp [compute_dtype_sum, hint]
  · intro hne
    simp [compute_dtype_mean, compute_dtype_trace, hne]

theorem integral_promotion_is_sum_only_witness :
    isIntegralType sample_int.scalar_type true = true ∧
      compute_dtype_mean sample_int none = [ScalarType.Int] ∧
      compute_dtype_trace sample_int = [ScalarType.Int] ∧
      compute_dtype_mean sample_int (some ScalarType.Double) = [ScalarType.Double] ∧
      compute_dtype_sum sample_int none = [ScalarType.Long] :=
  ⟨by decide,
    (integral_promotion_is_sum_only sample_int ScalarType.Double (by decide)).1,
    (integral_promotion_is_sum_only sample_int ScalarType.Double (by decide)).2.1,
    (integral_promotion_is_sum_only sample_int ScalarType.Double (by decide)).2.2.1,
    (integral_promotion_is_sum_only sample_int ScalarType.Double (by decide)).2.2.2.1⟩

end torch_lazy_tensors.ir.ops
